import Mathlib

/-!
Verification of the `cors` HTTP middleware (package `cors`, file `cors.go`).

The Go code is shallowly embedded: the policy container `Options` and the
handler `Cors` become Lean structures; header emission is modelled as the
ordered list of `(name, value)` pairs the Go code passes to `headers.Set`;
the wrapped application handler is modelled by a Boolean recording whether
it is invoked.  Go string primitives are embedded as per-character maps
over the string's character list so that every definition evaluates by
kernel reduction.
-/

namespace CorsSpec

/-- Embeds Go's `strings.ToUpper`: upper-case every character. -/
def toUpperStr (s : String) : String :=
  String.mk (s.data.map Char.toUpper)

/-- Embeds Go's `strings.ToLower`: lower-case every character. -/
def toLowerStr (s : String) : String :=
  String.mk (s.data.map Char.toLower)

/-- Splits a character list on a separator character; the empty list
yields one empty field, and a trailing separator yields a trailing empty
field (as Go's `strings.Split` does on strings). -/
def splitOnChar (sep : Char) : List Char → List (List Char)
  | [] => [[]]
  | c :: cs =>
    if c = sep then
      [] :: splitOnChar sep cs
    else
      match splitOnChar sep cs with
      | [] => [[c]]
      | t :: ts => (c :: t) :: ts

/-- Strips leading and trailing whitespace from a string. -/
def trimStr (s : String) : String :=
  String.mk (((s.data.dropWhile Char.isWhitespace).reverse.dropWhile Char.isWhitespace).reverse)

/-- `Options` is the configuration container of the middleware
(`Options` struct in cors.go).  Go's `MaxAge int` is embedded as `Int`. -/
structure Options where
  allowedOrigins : List String
  allowedMethods : List String
  allowedHeaders : List String
  exposedHeaders : List String
  allowCredentials : Bool
  maxAge : Int
deriving Repr, DecidableEq

/-- The `Cors` handler struct holding the normalized options. -/
structure Cors where
  options : Options
deriving Repr, DecidableEq

/-- An incoming HTTP request, restricted to the fields the middleware
reads: the method and the three request headers.  A missing header is the
empty string, matching Go's `r.Header.Get` which returns `""` when the
header is absent. -/
structure Request where
  method : String
  origin : String
  accessControlRequestMethod : String
  accessControlRequestHeaders : String
deriving Repr, DecidableEq

/-- Modelled from the spec: the helper `convert` (from the repository's
utility file, not present under src/) applies a normalization function to
every element of a string list. -/
def convert (s : List String) (c : String → String) : List String :=
  s.map c

/-- Modelled from the spec: canonical capitalization of a single
dash-separated word of a header name (first letter upper-cased, the rest
lower-cased), the building block of `toHeader`. -/
def capitalizeWord : List Char → String
  | [] => ""
  | c :: cs => String.mk (Char.toUpper c :: cs.map Char.toLower)

/-- Modelled from the spec: the helper `toHeader` (from the repository's
utility file, not present under src/) puts a header name in canonical
capitalization, e.g. `"content-type"` becomes `"Content-Type"`. -/
def toHeader (s : String) : String :=
  String.intercalate "-" ((splitOnChar '-' s.data).map capitalizeWord)

/-- Modelled from the spec: the helper `parseHeaderList` (from the
repository's utility file, not present under src/) parses the
comma-separated value of `Access-Control-Request-Headers` into trimmed
tokens; an absent/empty header value yields the empty token list, while
empty tokens produced by malformed input (e.g. a trailing comma) are
preserved as empty strings. -/
def parseHeaderList (headerList : String) : List String :=
  if headerList = "" then []
  else (splitOnChar ',' headerList.data).map (fun cs => trimStr (String.mk cs))

/-- `New` creates a `Cors` handler from raw options (cors.go:58-83):
origins are lower-cased, methods upper-cased, `"Origin"` is appended to
the allowed headers before canonicalization, and empty origin/method
lists fall back to `["*"]` and `["GET", "POST"]`. -/
def New (options : Options) : Cors :=
  { options :=
    { allowedOrigins :=
        if (convert options.allowedOrigins toLowerStr).length = 0 then
          ["*"]
        else
          convert options.allowedOrigins toLowerStr
      allowedMethods :=
        if (convert options.allowedMethods toUpperStr).length = 0 then
          ["GET", "POST"]
        else
          convert options.allowedMethods toUpperStr
      allowedHeaders := convert (options.allowedHeaders ++ ["Origin"]) toHeader
      exposedHeaders := convert options.exposedHeaders toHeader
      allowCredentials := options.allowCredentials
      maxAge := options.maxAge } }

/-- `Default` creates a `Cors` handler with default options (cors.go:86-88). -/
def Default : Cors :=
  New { allowedOrigins := []
        allowedMethods := []
        allowedHeaders := []
        exposedHeaders := []
        allowCredentials := false
        maxAge := 0 }

/-- `isOriginAllowed` (cors.go:182-194): lower-case the origin and scan the
allowed-origin list, accepting on the sentinel `"*"` or an exact match. -/
def isOriginAllowed (cors : Cors) (origin : String) : Bool :=
  cors.options.allowedOrigins.any
    (fun allowedOrigin => allowedOrigin == "*" || allowedOrigin == toLowerStr origin)

/-- `isMethodAllowed` (cors.go:198-215): an empty allowed-method list
rejects everything, even preflight; otherwise the upper-cased method is
accepted when it is `"OPTIONS"` or appears in the list. -/
def isMethodAllowed (cors : Cors) (method : String) : Bool :=
  if cors.options.allowedMethods.length = 0 then
    false
  else if toUpperStr method = "OPTIONS" then
    true
  else
    cors.options.allowedMethods.any (fun allowedMethod => allowedMethod == toUpperStr method)

/-- `areHeadersAllowed` (cors.go:219-236): an empty requested list is
allowed; otherwise every requested header must equal some entry of the
allowed-header list. -/
def areHeadersAllowed (cors : Cors) (requestedHeaders : List String) : Bool :=
  if requestedHeaders.length = 0 then
    true
  else
    requestedHeaders.all
      (fun header => cors.options.allowedHeaders.any (fun allowedHeader => header == allowedHeader))

/-- `handlePreflight` (cors.go:123-154), returning the ordered list of
response headers it sets.  The guards mirror the Go early returns; on
success the five emissions follow in source order. -/
def handlePreflight (cors : Cors) (r : Request) : List (String × String) :=
  if r.method ≠ "OPTIONS" ∨ r.origin = "" ∨ ¬ isOriginAllowed cors r.origin then
    []
  else if ¬ isMethodAllowed cors r.accessControlRequestMethod then
    []
  else if ¬ areHeadersAllowed cors (parseHeaderList r.accessControlRequestHeaders) then
    []
  else
    ("Access-Control-Allow-Origin", r.origin) ::
    ("Access-Control-Allow-Methods", toUpperStr r.accessControlRequestMethod) ::
    ((if (parseHeaderList r.accessControlRequestHeaders).length > 0 then
        [("Access-Control-Allow-Headers",
          String.intercalate ", " (parseHeaderList r.accessControlRequestHeaders))]
      else []) ++
     (if cors.options.allowCredentials then
        [("Access-Control-Allow-Credentials", "true")]
      else []) ++
     (if cors.options.maxAge > 0 then
        [("Access-Control-Max-Age", toString cors.options.maxAge)]
      else []))

/-- `handleActualRequest` (cors.go:157-178), returning the ordered list of
response headers it sets. -/
def handleActualRequest (cors : Cors) (r : Request) : List (String × String) :=
  if r.method = "OPTIONS" ∨ r.origin = "" ∨ ¬ isOriginAllowed cors r.origin then
    []
  else if ¬ isMethodAllowed cors r.method then
    []
  else
    ("Access-Control-Allow-Origin", r.origin) ::
    ((if cors.options.exposedHeaders.length > 0 then
        [("Access-Control-Expose-Headers", String.intercalate ", " cors.options.exposedHeaders)]
      else []) ++
     (if cors.options.allowCredentials then
        [("Access-Control-Allow-Credentials", "true")]
      else []))

/-- `Handler` (cors.go:92-101): an `OPTIONS` request runs the preflight
path and never reaches the wrapped handler; every other request runs the
actual-request path and then invokes the wrapped handler.  The result is
the pair of the headers set by the middleware and whether the wrapped
handler was invoked. -/
def Handler (cors : Cors) (r : Request) : List (String × String) × Bool :=
  if r.method = "OPTIONS" then
    (handlePreflight cors r, false)
  else
    (handleActualRequest cors r, true)



/-! ### Concrete fixtures used by the witness theorems -/

/-- A concrete raw option set exercising every normalization. -/
def egOptions : Options :=
  { allowedOrigins := ["http://Foo.com"]
    allowedMethods := ["get", "post"]
    allowedHeaders := ["x-custom"]
    exposedHeaders := ["x-expose"]
    allowCredentials := true
    maxAge := 10 }

/-- The handler built from `egOptions`. -/
def egCors : Cors := New egOptions

/-- A preflight request that passes every check of `egCors`. -/
def egPreflight : Request :=
  { method := "OPTIONS"
    origin := "http://foo.com"
    accessControlRequestMethod := "post"
    accessControlRequestHeaders := "X-Custom" }

/-- A preflight request from an origin `egCors` does not allow. -/
def egBadPreflight : Request :=
  { method := "OPTIONS"
    origin := "http://bar.com"
    accessControlRequestMethod := "post"
    accessControlRequestHeaders := "" }

/-- An actual request that passes every check of `egCors`. -/
def egActual : Request :=
  { method := "GET"
    origin := "http://foo.com"
    accessControlRequestMethod := ""
    accessControlRequestHeaders := "" }

/-! ### Claim theorems -/

/-- C1: for every policy and preflight request passing the origin, method
and header checks, `handlePreflight` emits exactly the echoed literal
Origin value, the upper-cased requested method, the parsed requested
headers rejoined with ", " when non-empty, the credentials header when
configured, and the decimal max-age header when `maxAge > 0`. -/
theorem handlePreflight_success_emits (cors : Cors) (r : Request)
    (hm : r.method = "OPTIONS") (ho : r.origin ≠ "")
    (hoa : isOriginAllowed cors r.origin = true)
    (hma : isMethodAllowed cors r.accessControlRequestMethod = true)
    (hha : areHeadersAllowed cors (parseHeaderList r.accessControlRequestHeaders) = true) :
    handlePreflight cors r =
      ("Access-Control-Allow-Origin", r.origin) ::
      ("Access-Control-Allow-Methods", toUpperStr r.accessControlRequestMethod) ::
      ((if parseHeaderList r.accessControlRequestHeaders ≠ [] then
          [("Access-Control-Allow-Headers",
            String.intercalate ", " (parseHeaderList r.accessControlRequestHeaders))]
        else []) ++
       (if cors.options.allowCredentials = true then
          [("Access-Control-Allow-Credentials", "true")]
        else []) ++
       (if cors.options.maxAge > 0 then
          [("Access-Control-Max-Age", toString cors.options.maxAge)]
        else [])) := by
  simp [handlePreflight, hm, ho, hoa, hma, hha, List.length_pos]

/-- C1 witness: the emission at a concrete passing preflight request. -/
theorem handlePreflight_success_emits_witness :
    handlePreflight egCors egPreflight =
      [("Access-Control-Allow-Origin", "http://foo.com"),
       ("Access-Control-Allow-Methods", "POST"),
       ("Access-Control-Allow-Headers", "X-Custom"),
       ("Access-Control-Allow-Credentials", "true"),
       ("Access-Control-Max-Age", "10")] := by
  rw [handlePreflight_success_emits egCors egPreflight rfl (by decide) (by decide)
    (by decide) (by decide)]
  decide



/-- C2: the method matcher accepts exactly when the allowed-method list is
non-empty and the upper-cased input is "OPTIONS" or a list entry; an empty
list rejects everything, "OPTIONS" included. -/
theorem isMethodAllowed_iff (cors : Cors) (method : String) :
    isMethodAllowed cors method = true ↔
      cors.options.allowedMethods ≠ [] ∧
        (toUpperStr method = "OPTIONS" ∨
          toUpperStr method ∈ cors.options.allowedMethods) := by
  unfold isMethodAllowed
  split
  · next h => simp [List.length_eq_zero.mp h]
  · next h =>
    have hne : cors.options.allowedMethods ≠ [] := by
      simpa [List.length_eq_zero] using h
    split
    · next hOpt => simp [hne, hOpt]
    · next hOpt => simp [hne, hOpt, List.any_eq_true, beq_iff_eq]

/-- C2 witness: the equivalence at a concrete policy and method. -/
theorem isMethodAllowed_iff_witness :
    (isMethodAllowed egCors "delete" = true ↔
      egCors.options.allowedMethods ≠ [] ∧
        (toUpperStr "delete" = "OPTIONS" ∨
          toUpperStr "delete" ∈ egCors.options.allowedMethods)) ∧
    isMethodAllowed egCors "delete" = false :=
  ⟨isMethodAllowed_iff egCors "delete", by decide⟩

/-- C3: the origin gate of both request paths passes iff the Origin header
is non-empty and the allowed-origin list contains "*" or the lower-cased
origin verbatim; an empty Origin makes both paths emit no header. -/
theorem origin_check_iff (cors : Cors) (r : Request) :
    ((r.origin ≠ "" ∧ isOriginAllowed cors r.origin = true) ↔
      r.origin ≠ "" ∧
        ("*" ∈ cors.options.allowedOrigins ∨
          toLowerStr r.origin ∈ cors.options.allowedOrigins)) ∧
    (r.origin = "" → handlePreflight cors r = [] ∧ handleActualRequest cors r = []) := by
  constructor
  · refine and_congr_right fun _ => ?_
    simp only [isOriginAllowed, List.any_eq_true, Bool.or_eq_true, beq_iff_eq]
    constructor
    · rintro ⟨x, hx, rfl | rfl⟩
      · exact Or.inl hx
      · exact Or.inr hx
    · rintro (h | h)
      · exact ⟨"*", h, Or.inl rfl⟩
      · exact ⟨toLowerStr r.origin, h, Or.inr rfl⟩
  · intro h
    constructor <;> simp [handlePreflight, handleActualRequest, h]

/-- C3 witness: the equivalence and the empty-origin behaviour at concrete
inputs. -/
theorem origin_check_iff_witness :
    (("http://bar.com" ≠ "" ∧ isOriginAllowed egCors "http://bar.com" = true) ↔
      "http://bar.com" ≠ "" ∧
        ("*" ∈ egCors.options.allowedOrigins ∨
          toLowerStr "http://bar.com" ∈ egCors.options.allowedOrigins)) ∧
    handlePreflight egCors { egPreflight with origin := "" } = [] ∧
    handleActualRequest egCors { egActual with origin := "" } = [] := by
  refine ⟨(origin_check_iff egCors { egPreflight with origin := "http://bar.com" }).1, ?_, ?_⟩
  · exact ((origin_check_iff egCors { egPreflight with origin := "" }).2 rfl).1
  · exact ((origin_check_iff egCors { egActual with origin := "" }).2 rfl).2

/-- C4: the header matcher accepts exactly the empty requested list or a
list whose every token equals some entry of the canonicalized
allowed-header list. -/
theorem areHeadersAllowed_iff (cors : Cors) (requestedHeaders : List String) :
    areHeadersAllowed cors requestedHeaders = true ↔
      (requestedHeaders = [] ∨
        ∀ header ∈ requestedHeaders, header ∈ cors.options.allowedHeaders) := by
  unfold areHeadersAllowed
  split
  · next h => simp [List.length_eq_zero.mp h]
  · next h =>
    have hne : requestedHeaders ≠ [] := by
      simpa [List.length_eq_zero] using h
    simp [hne, List.all_eq_true, List.any_eq_true, beq_iff_eq]

/-- C4 witness: the equivalence at a concrete policy and token lists, with
one passing and one failing list evaluated. -/
theorem areHeadersAllowed_iff_witness :
    (areHeadersAllowed egCors ["X-Custom", "Origin"] = true ↔
      (["X-Custom", "Origin"] = ([] : List String) ∨
        ∀ header ∈ ["X-Custom", "Origin"], header ∈ egCors.options.allowedHeaders)) ∧
    areHeadersAllowed egCors ["X-Custom", "X-Other"] = false :=
  ⟨areHeadersAllowed_iff egCors ["X-Custom", "Origin"], by decide⟩



/-- C5: a request classified as preflight (method "OPTIONS") never invokes
the wrapped handler, and when any preflight check fails the component
writes no response header at all. -/
theorem preflight_short_circuits (cors : Cors) (r : Request)
    (hm : r.method = "OPTIONS") :
    (Handler cors r).2 = false ∧
      ((r.origin = "" ∨ isOriginAllowed cors r.origin = false ∨
          isMethodAllowed cors r.accessControlRequestMethod = false ∨
          areHeadersAllowed cors (parseHeaderList r.accessControlRequestHeaders) = false) →
        (Handler cors r).1 = []) := by
  refine ⟨by simp [Handler, hm], ?_⟩
  intro h
  simp only [Handler, hm, if_pos]
  rcases h with h | h | h | h <;> simp [handlePreflight, hm, h]

/-- C5 witness: a preflight request from a disallowed origin invokes no
handler and emits no header. -/
theorem preflight_short_circuits_witness :
    (Handler egCors egBadPreflight).2 = false ∧ (Handler egCors egBadPreflight).1 = [] := by
  have h := preflight_short_circuits egCors egBadPreflight rfl
  exact ⟨h.1, h.2 (by decide)⟩

/-- C6: for a non-preflight request, `handleActualRequest` writes nothing
when the origin is empty or the origin or method check fails, and
otherwise emits exactly the echoed origin, the joined exposed headers
when non-empty, and the credentials header when configured. -/
theorem handleActualRequest_emits (cors : Cors) (r : Request)
    (hm : r.method ≠ "OPTIONS") :
    ((r.origin = "" ∨ isOriginAllowed cors r.origin = false ∨
        isMethodAllowed cors r.method = false) →
      handleActualRequest cors r = []) ∧
    (r.origin ≠ "" → isOriginAllowed cors r.origin = true →
      isMethodAllowed cors r.method = true →
      handleActualRequest cors r =
        ("Access-Control-Allow-Origin", r.origin) ::
        ((if cors.options.exposedHeaders ≠ [] then
            [("Access-Control-Expose-Headers",
              String.intercalate ", " cors.options.exposedHeaders)]
          else []) ++
         (if cors.options.allowCredentials = true then
            [("Access-Control-Allow-Credentials", "true")]
          else []))) := by
  constructor
  · rintro (h | h | h) <;> simp [handleActualRequest, h]
  · intro ho hoa hma
    simp [handleActualRequest, hm, ho, hoa, hma, List.length_pos]

/-- C6 witness: the emission at a concrete passing actual request. -/
theorem handleActualRequest_emits_witness :
    handleActualRequest egCors egActual =
      [("Access-Control-Allow-Origin", "http://foo.com"),
       ("Access-Control-Expose-Headers", "X-Expose"),
       ("Access-Control-Allow-Credentials", "true")] := by
  rw [(handleActualRequest_emits egCors egActual (by decide)).2 (by decide) (by decide)
    (by decide)]
  decide

/-- C7: every non-preflight request runs the actual-request header step
and then always invokes the wrapped handler, whatever the checks said. -/
theorem actual_always_invokes_handler (cors : Cors) (r : Request)
    (hm : r.method ≠ "OPTIONS") :
    Handler cors r = (handleActualRequest cors r, true) := by
  simp [Handler, hm]

/-- C7 witness: a DELETE request that fails the method check still invokes
the wrapped handler. -/
theorem actual_always_invokes_handler_witness :
    Handler egCors { egActual with method := "DELETE" } =
      (handleActualRequest egCors { egActual with method := "DELETE" }, true) ∧
    (Handler egCors { egActual with method := "DELETE" }).1 = [] :=
  ⟨actual_always_invokes_handler egCors { egActual with method := "DELETE" } (by decide),
   by decide⟩



/-- C8: `New` lower-cases origins, upper-cases methods, canonicalizes
allowed and exposed header names, always appends "Origin" to the allowed
headers, and defaults only empty origin/method lists after normalization;
it is a total deterministic function. -/
theorem New_normalizes (options : Options) :
    (New options).options.allowedOrigins =
      (if options.allowedOrigins.map toLowerStr = [] then ["*"]
       else options.allowedOrigins.map toLowerStr) ∧
    (New options).options.allowedMethods =
      (if options.allowedMethods.map toUpperStr = [] then ["GET", "POST"]
       else options.allowedMethods.map toUpperStr) ∧
    (New options).options.allowedHeaders =
      (options.allowedHeaders ++ ["Origin"]).map toHeader ∧
    "Origin" ∈ (New options).options.allowedHeaders ∧
    (New options).options.exposedHeaders = options.exposedHeaders.map toHeader ∧
    (New options).options.allowCredentials = options.allowCredentials ∧
    (New options).options.maxAge = options.maxAge := by
  refine ⟨?_, ?_, rfl, ?_, rfl, rfl, rfl⟩
  · simp [New, convert, List.length_eq_zero]
  · simp [New, convert, List.length_eq_zero]
  · have h : toHeader "Origin" = "Origin" := by decide
    simp only [New, convert, List.map_append]
    exact List.mem_append_right _ (by simp [h])

/-- C8 witness: the normalization at a concrete raw option set. -/
theorem New_normalizes_witness :
    (New egOptions).options.allowedOrigins =
      (if egOptions.allowedOrigins.map toLowerStr = [] then ["*"]
       else egOptions.allowedOrigins.map toLowerStr) ∧
    (New egOptions).options.allowedMethods =
      (if egOptions.allowedMethods.map toUpperStr = [] then ["GET", "POST"]
       else egOptions.allowedMethods.map toUpperStr) ∧
    (New egOptions).options.allowedHeaders =
      (egOptions.allowedHeaders ++ ["Origin"]).map toHeader ∧
    "Origin" ∈ (New egOptions).options.allowedHeaders ∧
    (New egOptions).options.exposedHeaders = egOptions.exposedHeaders.map toHeader ∧
    (New egOptions).options.allowCredentials = egOptions.allowCredentials ∧
    (New egOptions).options.maxAge = egOptions.maxAge :=
  New_normalizes egOptions

/-- C9: with a non-empty allowed-method list not containing "OPTIONS", any
method upper-casing to "OPTIONS" still passes the matcher, while a request
whose method is "OPTIONS" is always routed to the preflight path, never to
the actual-request path. -/
theorem options_preflight_routing (cors : Cors) (r : Request) (m : String)
    (hne : cors.options.allowedMethods ≠ [])
    (_hnoOpt : "OPTIONS" ∉ cors.options.allowedMethods) :
    (toUpperStr m = "OPTIONS" → isMethodAllowed cors m = true) ∧
      (r.method = "OPTIONS" →
        Handler cors r = (handlePreflight cors r, false) ∧
          handleActualRequest cors r = []) := by
  constructor
  · intro hOpt
    simp [isMethodAllowed, hOpt, List.length_eq_zero, hne]
  · intro hm
    exact ⟨by simp [Handler, hm], by simp [handleActualRequest, hm]⟩

/-- C9 witness: `egCors` allows methods GET and POST only, yet the method
"OPTIONS" passes the matcher and an OPTIONS request is routed to the
preflight path. -/
theorem options_preflight_routing_witness :
    (toUpperStr "OPTIONS" = "OPTIONS" → isMethodAllowed egCors "OPTIONS" = true) ∧
      (egPreflight.method = "OPTIONS" →
        Handler egCors egPreflight = (handlePreflight egCors egPreflight, false) ∧
          handleActualRequest egCors egPreflight = []) :=
  options_preflight_routing egCors egPreflight "OPTIONS" (by decide) (by decide)

/-- C10: whenever either response composer writes any header at all, the
echoed Access-Control-Allow-Origin header is among the headers written. -/
theorem allow_origin_always_present (cors : Cors) (r : Request) :
    (handlePreflight cors r ≠ [] →
      ("Access-Control-Allow-Origin", r.origin) ∈ handlePreflight cors r) ∧
    (handleActualRequest cors r ≠ [] →
      ("Access-Control-Allow-Origin", r.origin) ∈ handleActualRequest cors r) := by
  constructor
  · intro h
    simp only [handlePreflight] at h ⊢
    split_ifs at h ⊢ <;> simp_all
  · intro h
    simp only [handleActualRequest] at h ⊢
    split_ifs at h ⊢ <;> simp_all

/-- C10 witness: the allow-origin header is present in both concrete
non-empty emissions. -/
theorem allow_origin_always_present_witness :
    ("Access-Control-Allow-Origin", "http://foo.com") ∈ handlePreflight egCors egPreflight ∧
    ("Access-Control-Allow-Origin", "http://foo.com") ∈ handleActualRequest egCors egActual :=
  ⟨(allow_origin_always_present egCors egPreflight).1 (by decide),
   (allow_origin_always_present egCors egActual).2 (by decide)⟩

end CorsSpec
